import Mathlib

/-!
# go-err113, `comparison.go`: the direct error comparison check

A shallow embedding of `inspectComparision`, `isError`, `isEOF` and
`asImportedName`, together with the parts of `go/ast`, `go/token`, `go/types`,
`fmt` and `strconv` those four functions read.

* A Go map is a function into `Option`; a missing key is `none`.
* A call that dereferences a nil value is a `Panic`; functions that can reach
  one return `Except Panic _`.
* `pass.Report` is the last statement of `inspectComparision`, so the
  diagnostics handed to it are returned next to the boolean result.
-/

namespace Err113

/-! ## go/token -/

/-- A `token.Pos`: an offset into the file set, `0` being `token.NoPos`. -/
abbrev Pos := Nat

/-- The `token.Token` values that occur in literals, unary and binary expressions. -/
inductive Token where
  | INT | FLOAT | IMAG | CHAR | STRING
  | ADD | SUB | MUL | QUO | REM
  | AND | OR | XOR | SHL | SHR | AND_NOT
  | LAND | LOR | ARROW
  | EQL | LSS | GTR | NOT
  | NEQ | LEQ | GEQ
deriving DecidableEq, Repr

/-- A file set holding one file: its base position and its text. -/
structure FileSet where
  base : Nat
  src : String
deriving DecidableEq, Repr

/-! ## go/ast -/

/-- An `*ast.Ident`. -/
structure Ident where
  NamePos : Pos
  Name : String
deriving DecidableEq, Repr

/-- The expression nodes of `go/ast` the check can tell apart, with the fields
of the Go structs in their declared order. -/
inductive Expr where
  | BadExpr (From To : Pos)
  | Ident (id : Err113.Ident)
  | BasicLit (ValuePos : Pos) (Kind : Token) (Value : String)
  | ParenExpr (Lparen : Pos) (X : Expr) (Rparen : Pos)
  | SelectorExpr (X : Expr) (Sel : Err113.Ident)
  | CallExpr (Fun : Expr) (Lparen : Pos) (Args : List Expr) (Ellipsis : Pos) (Rparen : Pos)
  | StarExpr (Star : Pos) (X : Expr)
  | UnaryExpr (OpPos : Pos) (Op : Token) (X : Expr)
  | BinaryExpr (X : Expr) (OpPos : Pos) (Op : Token) (Y : Expr)

/-- An `ast.Node` as `ast.Inspect` hands it to the visitor: the nil node that
closes a subtree, an expression, or a node of another kind (statement,
declaration, file, ...) with its extent. -/
inductive Node where
  | nil
  | expr (e : Expr)
  | other (From To : Pos)

/-- The method `End` of `*ast.Ident`: `NamePos + len(Name)`. -/
def Ident.End (id : Ident) : Pos := id.NamePos + id.Name.utf8ByteSize

/-- The method `Pos` of the expression nodes. -/
def Expr.Pos : Expr → Err113.Pos
  | .BadExpr from_ _ => from_
  | .Ident id => id.NamePos
  | .BasicLit p _ _ => p
  | .ParenExpr l _ _ => l
  | .SelectorExpr x _ => x.Pos
  | .CallExpr f _ _ _ _ => f.Pos
  | .StarExpr s _ => s
  | .UnaryExpr p _ _ => p
  | .BinaryExpr x _ _ _ => x.Pos

/-- The method `End` of the expression nodes. -/
def Expr.End : Expr → Err113.Pos
  | .BadExpr _ to_ => to_
  | .Ident id => id.End
  | .BasicLit p _ v => p + v.utf8ByteSize
  | .ParenExpr _ _ r => r + 1
  | .SelectorExpr _ sel => sel.End
  | .CallExpr _ _ _ _ r => r + 1
  | .StarExpr _ x => x.End
  | .UnaryExpr _ _ x => x.End
  | .BinaryExpr _ _ _ y => y.End

/-! ## go/types -/

/-- A `*types.Package`. -/
structure Package where
  path : String
  name : String
deriving DecidableEq, Repr

/-- The type of a method receiver. In Go it points back into the type graph
(the receiver of `error`'s method is `error` itself), so it is kept as the
reference `types.WriteType` prints: an unnamed interface with its printed form,
a named type with the package that declares it (`none` for the universe), or a
pointer. -/
inductive RecvType where
  | Interface (text : String)
  | Named (pkg : Option Package) (name : String)
  | Pointer (elem : RecvType)
deriving DecidableEq, Repr

/-- A `*types.Signature`; parameter and result types by their printed form. -/
structure Signature where
  recv : Option RecvType
  params : List String
  results : List String
deriving DecidableEq, Repr

/-- A `*types.Func`. -/
structure Func where
  pkg : Option Package
  name : String
  typ : Option Signature
deriving DecidableEq, Repr

/-- The function `writePackage` of `go/types` with a nil qualifier. -/
def writePackage (pkg : Option Package) : String :=
  match pkg with
  | none => ""
  | some p => if p.path ≠ "" then p.path ++ "." else ""

/-- The function `types.WriteType` with a nil qualifier, on a receiver type. -/
def RecvType.WriteType : RecvType → String
  | .Interface text => text
  | .Named pkg name => writePackage pkg ++ name
  | .Pointer elem => "*" ++ elem.WriteType

/-- The method `FullName` of `*types.Func` (`writeFuncName` with a nil qualifier). -/
def Func.FullName (f : Func) : String :=
  (match f.typ with
   | none => ""
   | some sig =>
     match sig.recv with
     | some recv =>
       "(" ++ (match recv with
               | .Interface _ => "interface"
               | r => r.WriteType) ++ ")" ++ "."
     | none => writePackage f.pkg) ++ f.name

/-- The `types.BasicKind` values. -/
inductive BasicKind where
  | Invalid
  | Bool | Int | Int8 | Int16 | Int32 | Int64
  | Uint | Uint8 | Uint16 | Uint32 | Uint64 | Uintptr
  | Float32 | Float64 | Complex64 | Complex128
  | String | UnsafePointer
  | UntypedBool | UntypedInt | UntypedRune | UntypedFloat | UntypedComplex
  | UntypedString | UntypedNil
deriving DecidableEq, Repr

/-- A `types.Type`. `Named` carries the declaring package (`none` for the
universe), the name, the underlying type and the methods declared on the type;
`Interface` carries its complete method set (`allMethods`); `Composite` is any
other unnamed type (array, struct, map, channel, function), by its printed form. -/
inductive Typ where
  | Basic (kind : BasicKind)
  | Pointer (elem : Typ)
  | Slice (elem : Typ)
  | Composite (text : String)
  | Named (pkg : Option Package) (name : String) (underlying : Typ) (methods : List Func)
  | Interface (allMethods : List Func)
deriving DecidableEq, Repr

/-- The method `Underlying` of `types.Type`. -/
def Typ.Underlying : Typ → Typ
  | .Named _ _ underlying _ => underlying
  | t => t

/-- The operand modes of `go/types`. -/
inductive OperandMode where
  | invalid | novalue | builtin | typexpr | constant_ | variable | mapindex | value | commaok
deriving DecidableEq, Repr

/-- A `types.TypeAndValue`: its mode and its field `Type` (the constant value is
not read by the check). -/
structure TypeAndValue where
  mode : OperandMode
  typ : Option Typ
deriving DecidableEq, Repr

/-- The zero `TypeAndValue`, what a lookup of a missing key in `Types` yields. -/
def TypeAndValue.zero : TypeAndValue := { mode := .invalid, typ := none }

/-- The method `IsNil` of `types.TypeAndValue`:
`tv.mode == value && tv.Type == Typ[UntypedNil]`. -/
def TypeAndValue.IsNil (tv : TypeAndValue) : Bool :=
  tv.mode == .value && tv.typ == some (.Basic .UntypedNil)

/-- A `types.Object`: a `*types.PkgName` with the package it imports, or an
object of another kind (variable, constant, type name, function, label, ...)
with what its method `Type` returns. -/
inductive Object where
  | PkgName (imported : Package)
  | Other (typ : Option Typ)
deriving DecidableEq, Repr

/-- The method `Type` of `types.Object`; a package name has the invalid type. -/
def Object.Type : Object → Option Typ
  | .PkgName _ => some (.Basic .Invalid)
  | .Other typ => typ

/-- A `*types.Info`: the maps `Types`, `Defs` and `Uses`. A nil object stored in
`Defs` reads the same as a missing key and is `none`. -/
structure Info where
  Types : Expr → Option TypeAndValue
  Defs : Ident → Option Object
  Uses : Ident → Option Object

/-- The Go expression `info.Types[e]`. -/
def Info.TypesAt (info : Info) (e : Expr) : TypeAndValue :=
  (info.Types e).getD TypeAndValue.zero

/-- The method `ObjectOf` of `*types.Info`. -/
def Info.ObjectOf (info : Info) (id : Ident) : Option Object :=
  match info.Defs id with
  | some obj => some obj
  | none => info.Uses id

/-- The method `TypeOf` of `*types.Info`; `none` is the nil `types.Type`. -/
def Info.TypeOf (info : Info) (e : Expr) : Option Typ :=
  match info.Types e with
  | some t => t.typ
  | none =>
    match e with
    | .Ident id =>
      match info.ObjectOf id with
      | some obj => obj.Type
      | none => none
    | _ => none

/-! ## fmt and strconv -/

/-- What the Go library computes from data this embedding does not hold.
`quoteRune` is the escape `strconv.Quote` writes for a rune from U+007F on
(it depends on the Unicode tables of the library); `formatNode` is the text
the verb `%s` of `fmt` prints for a node that it walks by reflection with a
nested pointer or a position inside (it depends on memory addresses). -/
structure GoLib where
  quoteRune : Char → String
  formatNode : Expr → String

/-- The digit table `lowerhex` of `strconv`. -/
def lowerhex (n : Nat) : Char := "0123456789abcdef".toList.getD n '0'

/-- The function `appendEscapedRune` of `strconv` for the double quote, neither
ASCII-only nor graphic-only. -/
def appendEscapedRune (lib : GoLib) (r : Char) : String :=
  if r.toNat = 34 ∨ r.toNat = 92 then "\\" ++ String.singleton r
  else if 32 ≤ r.toNat ∧ r.toNat ≤ 126 then String.singleton r
  else if r.toNat = 7 then "\\a"
  else if r.toNat = 8 then "\\b"
  else if r.toNat = 12 then "\\f"
  else if r.toNat = 10 then "\\n"
  else if r.toNat = 13 then "\\r"
  else if r.toNat = 9 then "\\t"
  else if r.toNat = 11 then "\\v"
  else if r.toNat < 32 then
    "\\x" ++ String.singleton (lowerhex (r.toNat / 16)) ++ String.singleton (lowerhex (r.toNat % 16))
  else lib.quoteRune r

/-- The double quote as a string. -/
def dquote : String := String.singleton (Char.ofNat 34)

/-- The function `strconv.Quote`, which is what the verb `%q` prints for a string. -/
def Quote (lib : GoLib) (s : String) : String :=
  dquote ++ String.join (s.toList.map (appendEscapedRune lib)) ++ dquote

/-- The verb `%s` of `fmt` on an `ast.Expr`. An `*ast.Ident` has a method
`String` and prints its name. No other node has one: `fmt` prints the pointed-to
struct as `&` and its fields between braces, separated by blanks, each with the
same verb, so a selector on an identifier prints as its two names. -/
def fmtS (lib : GoLib) : Expr → String
  | .Ident id => id.Name
  | .SelectorExpr (.Ident x) sel => "&\x7b" ++ x.Name ++ " " ++ sel.Name ++ "\x7d"
  | e => lib.formatNode e

/-! ## golang.org/x/tools/go/analysis -/

/-- An `analysis.TextEdit`. -/
structure TextEdit where
  Pos : Err113.Pos
  End : Err113.Pos
  NewText : String
deriving DecidableEq, Repr

/-- An `analysis.SuggestedFix`. -/
structure SuggestedFix where
  Message : String
  TextEdits : List TextEdit
deriving DecidableEq, Repr

/-- An `analysis.Diagnostic`; the fields the check leaves unset are zero. -/
structure Diagnostic where
  Pos : Err113.Pos
  End : Err113.Pos
  Category : String
  Message : String
  SuggestedFixes : List SuggestedFix
deriving DecidableEq, Repr

/-- The fields of `*analysis.Pass` the check reads. -/
structure Pass where
  Fset : FileSet
  TypesInfo : Info

/-! ## err113 -/

/-- A run-time panic. -/
inductive Panic where
  | nilDereference
deriving DecidableEq, Repr

/-- Modelled from the spec: `render`, the helper of this package that turns a
node back into text and is not among the sources; it returns the verbatim
source substring for the span of the node. -/
def render (fset : FileSet) (e : Expr) : String :=
  fset.src.extract ⟨e.Pos - fset.base⟩ ⟨e.End - fset.base⟩

/-- The function `asImportedName` of comparison.go. -/
def asImportedName (ex : Expr) (info : Info) : String × Bool :=
  match ex with
  | .Ident ei =>
    match info.ObjectOf ei with
    | some (.PkgName imported) => (imported.name, true)
    | _ => ("", false)
  | _ => ("", false)

/-- The function `isEOF` of comparison.go. -/
def isEOF (ex : Expr) (info : Info) : Bool :=
  match ex with
  | .SelectorExpr X Sel =>
    if Sel.Name ≠ "EOF" then false
    else
      let r := asImportedName X info
      if !r.2 || r.1 ≠ "io" then false
      else true
  | _ => false

/-- The function `isError` of comparison.go. `info.TypeOf(v)` is a nil interface
when nothing is recorded for `v`, and the call of `Underlying` on it panics. -/
def isError (v : Expr) (info : Info) : Except Panic Bool :=
  match info.TypeOf v with
  | none => .error .nilDereference
  | some t =>
    match t.Underlying with
    | .Interface allMethods =>
      .ok (allMethods.length == 1 &&
        (allMethods.head?.map Func.FullName == some "(error).Error"))
    | _ => .ok false

/-- The condition `!isError(be.X, info) && !isError(be.Y, info)`; the right
operand is evaluated only when the left one is true. -/
def neitherIsError (X Y : Expr) (info : Info) : Except Panic Bool :=
  match isError X info with
  | .error p => .error p
  | .ok true => .ok false
  | .ok false =>
    match isError Y info with
    | .error p => .error p
    | .ok b => .ok (!b)

/-- The diagnostic `inspectComparision` builds for a comparison it flags. -/
def comparisonDiagnostic (lib : GoLib) (pass : Pass) (X : Expr) (OpPos : Pos) (Op : Token)
    (Y : Expr) : Diagnostic :=
  let be := Expr.BinaryExpr X OpPos Op Y
  let oldExpr := render pass.Fset be
  let negate := if Op = .NEQ then "!" else ""
  let newExpr := negate ++ "errors" ++ ".Is(" ++ fmtS lib X ++ ", " ++ fmtS lib Y ++ ")"
  { Pos := be.Pos
    End := 0
    Category := ""
    Message := "do not compare errors directly, use errors.Is() instead: " ++ Quote lib oldExpr
    SuggestedFixes :=
      [{ Message := "should replace " ++ Quote lib oldExpr ++ " with " ++ Quote lib newExpr
         TextEdits := [{ Pos := be.Pos, End := be.End, NewText := newExpr }] }] }

/-- The function `inspectComparision` of comparison.go: the boolean it returns
and the diagnostics it passed to `pass.Report`, or the panic it raised. -/
def inspectComparision (lib : GoLib) (pass : Pass) (n : Node) :
    Except Panic (Bool × List Diagnostic) :=
  match n with
  | .expr (.BinaryExpr X OpPos Op Y) =>
    if Op ≠ .EQL ∧ Op ≠ .NEQ then .ok (true, [])
    else if (pass.TypesInfo.TypesAt X).IsNil || (pass.TypesInfo.TypesAt Y).IsNil then
      .ok (true, [])
    else if isEOF X pass.TypesInfo || isEOF Y pass.TypesInfo then .ok (true, [])
    else
      match neitherIsError X Y pass.TypesInfo with
      | .error p => .error p
      | .ok true => .ok (true, [])
      | .ok false => .ok (true, [comparisonDiagnostic lib pass X OpPos Op Y])
  | _ => .ok (true, [])

/-- The diagnostics a run reported; a run that panicked had reported none. -/
def reported (r : Except Panic (Bool × List Diagnostic)) : List Diagnostic :=
  match r with
  | .ok (_, ds) => ds
  | .error _ => []

/-! ## Sample inputs -/

/-- A library instance for the sample inputs: wide runes are written as they
are, and a node printed by reflection comes out as a fixed marker. -/
def sampleLib : GoLib :=
  { quoteRune := fun r => String.singleton r
    formatNode := fun _ => "%!s(node)" }

/-- The method `Error` of the predeclared interface `error`. -/
def errorMethod : Func :=
  { pkg := none
    name := "Error"
    typ := some { recv := some (.Named none "error"), params := [], results := ["string"] } }

/-- The predeclared type `error` of the universe. -/
def universeError : Typ := .Named none "error" (.Interface [errorMethod]) []

/-- A variable of type `error`, as `Types` records it. -/
def errorVar : TypeAndValue := { mode := .variable, typ := some universeError }

/-- A variable of type `int`, as `Types` records it. -/
def intVar : TypeAndValue := { mode := .variable, typ := some (.Basic .Int) }

/-- A type table with no entry at all. -/
def emptyInfo : Info :=
  { Types := fun _ => none, Defs := fun _ => none, Uses := fun _ => none }

/-- The comparison `err1 == err2`, at the start of its file. -/
def cmpErr1Err2 : Expr :=
  .BinaryExpr (.Ident ⟨1, "err1"⟩) 6 .EQL (.Ident ⟨9, "err2"⟩)

/-- The comparison `err != otherSentinel`, at the start of its file. -/
def cmpErrOther : Expr :=
  .BinaryExpr (.Ident ⟨1, "err"⟩) 5 .NEQ (.Ident ⟨8, "otherSentinel"⟩)

/-- A pass over one file with the given text, in which every identifier is a
variable of type `error`. -/
def passAllErrors (src : String) : Pass :=
  { Fset := { base := 1, src := src }
    TypesInfo :=
      { Types := fun e =>
          match e with
          | .Ident _ => some errorVar
          | _ => none
        Defs := fun _ => none
        Uses := fun _ => some (.Other (some universeError)) } }

/-- The comparison `err == nil`, at the start of its file. -/
def cmpErrNil : Expr :=
  .BinaryExpr (.Ident ⟨1, "err"⟩) 5 .EQL (.Ident ⟨8, "nil"⟩)

/-- A pass over `err == nil`: `err` is a variable of type `error`, `nil` is the
untyped nil value. -/
def passErrNil : Pass :=
  { Fset := { base := 1, src := "err == nil" }
    TypesInfo :=
      { Types := fun e =>
          match e with
          | .Ident ⟨1, "err"⟩ => some errorVar
          | .Ident ⟨8, "nil"⟩ => some { mode := .value, typ := some (.Basic .UntypedNil) }
          | _ => none
        Defs := fun _ => none
        Uses := fun id =>
          match id with
          | ⟨1, "err"⟩ => some (.Other (some universeError))
          | ⟨8, "nil"⟩ => some (.Other (some (.Basic .UntypedNil)))
          | _ => none } }

/-- The comparison `err == io.EOF`, at the start of its file. -/
def cmpErrEOF : Expr :=
  .BinaryExpr (.Ident ⟨1, "err"⟩) 5 .EQL (.SelectorExpr (.Ident ⟨8, "io"⟩) ⟨11, "EOF"⟩)

/-- A pass over `err == io.EOF`: `io` names the imported package `io`. -/
def passErrEOF : Pass :=
  { Fset := { base := 1, src := "err == io.EOF" }
    TypesInfo :=
      { Types := fun e =>
          match e with
          | .Ident ⟨1, "err"⟩ => some errorVar
          | .SelectorExpr (.Ident ⟨8, "io"⟩) ⟨11, "EOF"⟩ => some errorVar
          | .Ident ⟨11, "EOF"⟩ => some errorVar
          | _ => none
        Defs := fun _ => none
        Uses := fun id =>
          match id with
          | ⟨1, "err"⟩ => some (.Other (some universeError))
          | ⟨8, "io"⟩ => some (.PkgName { path := "io", name := "io" })
          | ⟨11, "EOF"⟩ => some (.Other (some universeError))
          | _ => none } }

/-- The comparison `x == y`, at the start of its file. -/
def cmpXY : Expr :=
  .BinaryExpr (.Ident ⟨1, "x"⟩) 3 .EQL (.Ident ⟨6, "y"⟩)

/-- A pass over one file with the given text, in which every identifier is a
variable of type `int`. -/
def passAllInts (src : String) : Pass :=
  { Fset := { base := 1, src := src }
    TypesInfo :=
      { Types := fun e =>
          match e with
          | .Ident _ => some intVar
          | _ => none
        Defs := fun _ => none
        Uses := fun _ => some (.Other (some (.Basic .Int))) } }

/-- The expression `err1 + err2`, at the start of its file. -/
def sumErr1Err2 : Expr :=
  .BinaryExpr (.Ident ⟨1, "err1"⟩) 6 .ADD (.Ident ⟨8, "err2"⟩)

/-- The comparison `x == err`, at the start of its file. -/
def cmpXErr : Expr :=
  .BinaryExpr (.Ident ⟨1, "x"⟩) 3 .EQL (.Ident ⟨6, "err"⟩)

/-- A pass over `x == err` in which nothing is recorded for `x` (no type, no
object) and `err` is a variable of type `error`. -/
def passXErr : Pass :=
  { Fset := { base := 1, src := "x == err" }
    TypesInfo :=
      { Types := fun e =>
          match e with
          | .Ident ⟨6, "err"⟩ => some errorVar
          | _ => none
        Defs := fun _ => none
        Uses := fun id =>
          match id with
          | ⟨6, "err"⟩ => some (.Other (some universeError))
          | _ => none } }

/-- A pass over one file with the given text and an empty type table. -/
def passNoTypes (src : String) : Pass :=
  { Fset := { base := 1, src := src }, TypesInfo := emptyInfo }

/-- The selector `pkg.ErrFoo` at offset 7 of its file. -/
def selPkgErrFoo : Expr := .SelectorExpr (.Ident ⟨8, "pkg"⟩) ⟨12, "ErrFoo"⟩

/-- The comparison `err == pkg.ErrFoo`, at the start of its file. -/
def cmpErrPkgErrFoo : Expr :=
  .BinaryExpr (.Ident ⟨1, "err"⟩) 5 .EQL selPkgErrFoo

/-- A pass over `err == pkg.ErrFoo`: `pkg` names an imported package, `err` and
`pkg.ErrFoo` are variables of type `error`. -/
def passErrPkgErrFoo : Pass :=
  { Fset := { base := 1, src := "err == pkg.ErrFoo" }
    TypesInfo :=
      { Types := fun e =>
          match e with
          | .Ident ⟨1, "err"⟩ => some errorVar
          | .SelectorExpr (.Ident ⟨8, "pkg"⟩) ⟨12, "ErrFoo"⟩ => some errorVar
          | .Ident ⟨12, "ErrFoo"⟩ => some errorVar
          | _ => none
        Defs := fun _ => none
        Uses := fun id =>
          match id with
          | ⟨1, "err"⟩ => some (.Other (some universeError))
          | ⟨8, "pkg"⟩ => some (.PkgName { path := "example.com/pkg", name := "pkg" })
          | ⟨12, "ErrFoo"⟩ => some (.Other (some universeError))
          | _ => none } }

/-- The package `example.com/p` of the sample declarations. -/
def samplePkg : Package := { path := "example.com/p", name := "p" }

/-- The method of `type MyErr interface { Error() string }` declared in
`example.com/p`; its receiver is the named type. -/
def myErrMethod : Func :=
  { pkg := some samplePkg
    name := "Error"
    typ := some { recv := some (.Named (some samplePkg) "MyErr"), params := [],
                  results := ["string"] } }

/-- The type `MyErr` declared as `type MyErr interface { Error() string }`. -/
def myErrType : Typ := .Named (some samplePkg) "MyErr" (.Interface [myErrMethod]) []

/-- An operand `e`. -/
def myErrOperand : Expr := .Ident ⟨1, "e"⟩

/-- A type table in which every identifier is a variable of type `MyErr`. -/
def myErrInfo : Info :=
  { Types := fun e =>
      match e with
      | .Ident _ => some { mode := .variable, typ := some myErrType }
      | _ => none
    Defs := fun _ => none
    Uses := fun _ => some (.Other (some myErrType)) }

/-! ## The error capability in the words of the specification -/

/-- Whether a method is declared on a pointer receiver. -/
def Func.hasPointerRecv (f : Func) : Bool :=
  match f.typ with
  | some sig =>
    match sig.recv with
    | some (.Pointer _) => true
    | _ => false
  | none => false

/-- The method set of a type, after the Go language specification: the methods
of an interface; for a defined type the methods declared with a value receiver;
for a pointer to a defined type all methods declared on it; empty otherwise. -/
def methodSet : Typ → List Func
  | .Interface allMethods => allMethods
  | .Named _ _ (.Interface allMethods) _ => allMethods
  | .Named _ _ _ methods => methods.filter (fun m => !m.hasPointerRecv)
  | .Pointer (.Named _ _ (.Interface _) _) => []
  | .Pointer (.Named _ _ _ methods) => methods
  | _ => []

/-- The error capability as the specification words it: the method set of the
type contains exactly one method, that method takes no parameters, returns a
single string result, and is named `Error`. -/
def specErrorCapability (t : Typ) : Bool :=
  match methodSet t with
  | [m] =>
    m.name == "Error" &&
      (match m.typ with
       | some sig => sig.params == [] && sig.results == ["string"]
       | none => false)
  | _ => false

/-! ## Sample inputs for the sentinel and for concrete error types -/

/-- The comparison `err == eof`, at the start of its file. -/
def cmpErrEofAlias : Expr :=
  .BinaryExpr (.Ident ⟨1, "err"⟩) 5 .EQL (.Ident ⟨8, "eof"⟩)

/-- The selector `stdio.EOF`, at the start of its file. -/
def selStdioEOF : Expr := .SelectorExpr (.Ident ⟨1, "stdio"⟩) ⟨7, "EOF"⟩

/-- A type table for a file that imports the package `io` under the local
name `stdio`. -/
def stdioInfo : Info :=
  { Types := fun _ => none
    Defs := fun _ => none
    Uses := fun id =>
      match id with
      | ⟨1, "stdio"⟩ => some (.PkgName { path := "io", name := "io" })
      | _ => none }

/-- The selector `fake.EOF`, at the start of its file. -/
def selFakeEOF : Expr := .SelectorExpr (.Ident ⟨1, "fake"⟩) ⟨6, "EOF"⟩

/-- A type table for a file that imports `example.com/fake/io`, a package whose
package clause names it `io`, under the local name `fake`. -/
def fakeInfo : Info :=
  { Types := fun _ => none
    Defs := fun _ => none
    Uses := fun id =>
      match id with
      | ⟨1, "fake"⟩ => some (.PkgName { path := "example.com/fake/io", name := "io" })
      | _ => none }

/-- The method `func (e *MyError) Error() string` of the sample package. -/
def myErrorMethod : Func :=
  { pkg := some samplePkg
    name := "Error"
    typ := some { recv := some (.Pointer (.Named (some samplePkg) "MyError")), params := [],
                  results := ["string"] } }

/-- The type `*MyError`, where `MyError` is a struct type of the sample package
with the method `Error` declared on its pointer. -/
def ptrMyError : Typ :=
  .Pointer (.Named (some samplePkg) "MyError" (.Composite "struct\x7b\x7d") [myErrorMethod])

/-- The comparison `e1 == e2`, at the start of its file. -/
def cmpE1E2 : Expr :=
  .BinaryExpr (.Ident ⟨1, "e1"⟩) 4 .EQL (.Ident ⟨7, "e2"⟩)

/-- A pass over one file with the given text, in which every identifier is a
variable of type `*MyError`. -/
def passAllPtrMyError (src : String) : Pass :=
  { Fset := { base := 1, src := src }
    TypesInfo :=
      { Types := fun e =>
          match e with
          | .Ident _ => some { mode := .variable, typ := some ptrMyError }
          | _ => none
        Defs := fun _ => none
        Uses := fun _ => some (.Other (some ptrMyError)) } }

/-! ## Sample inputs for the texts of a diagnostic -/

/-- Text that `strconv.Quote` leaves as it is: printable ASCII characters other
than the double quote and the backslash. -/
def isPlain (s : String) : Bool :=
  s.toList.all (fun c => decide (32 ≤ c.toNat ∧ c.toNat ≤ 126 ∧ c.toNat ≠ 34 ∧ c.toNat ≠ 92))

/-- The source text of the comparison of `err` with the call of `errors.New` on
the string literal `x`. -/
def srcErrNew : String := "err == errors.New(" ++ dquote ++ "x" ++ dquote ++ ")"

/-- The call of `errors.New` on the string literal `x`, at offset 7 of its file. -/
def callErrorsNew : Expr :=
  .CallExpr (.SelectorExpr (.Ident ⟨8, "errors"⟩) ⟨15, "New"⟩) 18
    [.BasicLit 19 .STRING (dquote ++ "x" ++ dquote)] 0 22

/-- The comparison whose text is `srcErrNew`, at the start of its file. -/
def cmpErrNew : Expr := .BinaryExpr (.Ident ⟨1, "err"⟩) 5 .EQL callErrorsNew

/-- A pass over `srcErrNew`: `err` is a variable of type `error`, every call
is a value of type `error`, and `errors` names the imported package. -/
def passErrNew : Pass :=
  { Fset := { base := 1, src := srcErrNew }
    TypesInfo :=
      { Types := fun e =>
          match e with
          | .Ident ⟨1, "err"⟩ => some errorVar
          | .CallExpr _ _ _ _ _ => some { mode := .value, typ := some universeError }
          | _ => none
        Defs := fun _ => none
        Uses := fun id =>
          match id with
          | ⟨1, "err"⟩ => some (.Other (some universeError))
          | ⟨8, "errors"⟩ => some (.PkgName { path := "errors", name := "errors" })
          | _ => none } }

/-! ## Sample inputs for the rewritten site -/

/-- The negated call `!errors.Is(err, otherSentinel)`, at the start of its file. -/
def notIsErrOther : Expr :=
  .UnaryExpr 1 .NOT
    (.CallExpr (.SelectorExpr (.Ident ⟨2, "errors"⟩) ⟨9, "Is"⟩) 11
      [.Ident ⟨12, "err"⟩, .Ident ⟨17, "otherSentinel"⟩] 0 30)

/-! ## What `inspectComparision` does with a comparison -/

/-- A binary expression whose operator is neither `==` nor `!=` yields nothing. -/
theorem inspectComparision_other_operator (lib : GoLib) (pass : Pass) (X Y : Expr)
    (OpPos : Pos) (Op : Token) (h1 : Op ≠ .EQL) (h2 : Op ≠ .NEQ) :
    inspectComparision lib pass (.expr (.BinaryExpr X OpPos Op Y)) = .ok (true, []) := by
  simp [inspectComparision, h1, h2]

/-- A comparison that passes the operator, nil and end-of-stream gates is decided
by `neitherIsError` alone. -/
theorem inspectComparision_gated (lib : GoLib) (pass : Pass) (X Y : Expr)
    (OpPos : Pos) (Op : Token) (hOp : Op = .EQL ∨ Op = .NEQ)
    (hNilX : (pass.TypesInfo.TypesAt X).IsNil = false)
    (hNilY : (pass.TypesInfo.TypesAt Y).IsNil = false)
    (hEofX : isEOF X pass.TypesInfo = false) (hEofY : isEOF Y pass.TypesInfo = false) :
    inspectComparision lib pass (.expr (.BinaryExpr X OpPos Op Y)) =
      match neitherIsError X Y pass.TypesInfo with
      | .error p => .error p
      | .ok true => .ok (true, [])
      | .ok false => .ok (true, [comparisonDiagnostic lib pass X OpPos Op Y]) := by
  have hop : ¬ (Op ≠ .EQL ∧ Op ≠ .NEQ) := by
    rcases hOp with h | h <;> simp [h]
  simp only [inspectComparision, hop, if_false, hNilX, hNilY, hEofX, hEofY, Bool.or_self,
    Bool.false_eq_true]

/-- Whatever a comparison node reports is the one diagnostic built for it. -/
theorem reported_subset (lib : GoLib) (pass : Pass) (X Y : Expr) (OpPos : Pos) (Op : Token)
    (d : Diagnostic)
    (h : d ∈ reported (inspectComparision lib pass (.expr (.BinaryExpr X OpPos Op Y)))) :
    d = comparisonDiagnostic lib pass X OpPos Op Y := by
  unfold inspectComparision at h
  simp only at h
  split at h
  · simp [reported] at h
  · split at h
    · simp [reported] at h
    · split at h
      · simp [reported] at h
      · split at h
        · simp [reported] at h
        · simp [reported] at h
        · simpa [reported] using h

/-- C3: for every flagged comparison whose two operands are plain identifiers
`a` and `b`, the replacement text of every edit of every suggested fix is
`errors.Is(a, b)` when the operator is `==` and `!errors.Is(a, b)` when it is `!=`. -/
theorem replacement_of_identifiers (lib : GoLib) (pass : Pass) (a b : Ident) (OpPos : Pos)
    (Op : Token) (d : Diagnostic) (fix : SuggestedFix) (edit : TextEdit)
    (hd : d ∈ reported
      (inspectComparision lib pass (.expr (.BinaryExpr (.Ident a) OpPos Op (.Ident b)))))
    (hfix : fix ∈ d.SuggestedFixes) (hedit : edit ∈ fix.TextEdits) :
    (Op = .EQL → edit.NewText = "errors.Is(" ++ a.Name ++ ", " ++ b.Name ++ ")") ∧
    (Op = .NEQ → edit.NewText = "!errors.Is(" ++ a.Name ++ ", " ++ b.Name ++ ")") := by
  have hdiag := reported_subset lib pass _ _ OpPos Op d hd
  subst hdiag
  simp only [comparisonDiagnostic, List.mem_singleton] at hfix
  subst hfix
  simp only [List.mem_singleton] at hedit
  subst hedit
  constructor
  · intro h
    subst h
    simp [fmtS, String.append_assoc]
  · intro h
    subst h
    simp [fmtS, String.append_assoc]

/-- C3, on `err1 == err2` and on `err != otherSentinel`: both are flagged, and
the edits read `errors.Is(err1, err2)` and `!errors.Is(err, otherSentinel)`. -/
theorem replacement_of_identifiers_witness :
    (reported (inspectComparision sampleLib (passAllErrors "err1 == err2")
        (.expr cmpErr1Err2))).map
      (fun d => d.SuggestedFixes.map (fun f => f.TextEdits.map (fun e => e.NewText)))
      = [[["errors.Is(err1, err2)"]]] ∧
    (reported (inspectComparision sampleLib (passAllErrors "err != otherSentinel")
        (.expr cmpErrOther))).map
      (fun d => d.SuggestedFixes.map (fun f => f.TextEdits.map (fun e => e.NewText)))
      = [[["!errors.Is(err, otherSentinel)"]]] ∧
    "errors.Is(err1, err2)" = "errors.Is(" ++ "err1" ++ ", " ++ "err2" ++ ")" ∧
    "!errors.Is(err, otherSentinel)" = "!errors.Is(" ++ "err" ++ ", " ++ "otherSentinel" ++ ")" :=
  ⟨by rfl, by rfl,
    (replacement_of_identifiers sampleLib (passAllErrors "err1 == err2") ⟨1, "err1"⟩ ⟨9, "err2"⟩
      6 .EQL (comparisonDiagnostic sampleLib (passAllErrors "err1 == err2")
        (.Ident ⟨1, "err1"⟩) 6 .EQL (.Ident ⟨9, "err2"⟩))
      { Message := "should replace " ++ Quote sampleLib "err1 == err2" ++ " with " ++
          Quote sampleLib "errors.Is(err1, err2)"
        TextEdits := [{ Pos := 1, End := 13, NewText := "errors.Is(err1, err2)" }] }
      { Pos := 1, End := 13, NewText := "errors.Is(err1, err2)" }
      (by decide) (by decide) (by decide)).1 rfl,
    (replacement_of_identifiers sampleLib (passAllErrors "err != otherSentinel") ⟨1, "err"⟩
      ⟨8, "otherSentinel"⟩ 5 .NEQ
      (comparisonDiagnostic sampleLib (passAllErrors "err != otherSentinel")
        (.Ident ⟨1, "err"⟩) 5 .NEQ (.Ident ⟨8, "otherSentinel"⟩))
      { Message := "should replace " ++ Quote sampleLib "err != otherSentinel" ++ " with " ++
          Quote sampleLib "!errors.Is(err, otherSentinel)"
        TextEdits := [{ Pos := 1, End := 21, NewText := "!errors.Is(err, otherSentinel)" }] }
      { Pos := 1, End := 21, NewText := "!errors.Is(err, otherSentinel)" }
      (by decide) (by decide) (by decide)).2 rfl⟩

/-- C4: a comparison one of whose operands is nil-typed is not flagged, whatever
the operator and whatever the other operand. -/
theorem nil_operand_not_flagged (lib : GoLib) (pass : Pass) (X Y : Expr) (OpPos : Pos)
    (Op : Token)
    (h : (pass.TypesInfo.TypesAt X).IsNil = true ∨ (pass.TypesInfo.TypesAt Y).IsNil = true) :
    inspectComparision lib pass (.expr (.BinaryExpr X OpPos Op Y)) = .ok (true, []) := by
  unfold inspectComparision
  simp only
  split
  · rfl
  · have hnil : ((pass.TypesInfo.TypesAt X).IsNil || (pass.TypesInfo.TypesAt Y).IsNil) = true := by
      rcases h with h | h <;> simp [h]
    simp [hnil]

/-- C4, on `err == nil` and on the mirrored `nil != err`. -/
theorem nil_operand_not_flagged_witness :
    (passErrNil.TypesInfo.TypesAt (.Ident ⟨8, "nil"⟩)).IsNil = true ∧
    inspectComparision sampleLib passErrNil (.expr cmpErrNil) = .ok (true, []) ∧
    inspectComparision sampleLib passErrNil
      (.expr (.BinaryExpr (.Ident ⟨8, "nil"⟩) 12 .NEQ (.Ident ⟨1, "err"⟩))) = .ok (true, []) :=
  ⟨by decide,
    nil_operand_not_flagged sampleLib passErrNil (.Ident ⟨1, "err"⟩) (.Ident ⟨8, "nil"⟩) 5 .EQL
      (Or.inr (by decide)),
    nil_operand_not_flagged sampleLib passErrNil (.Ident ⟨8, "nil"⟩) (.Ident ⟨1, "err"⟩) 12 .NEQ
      (Or.inl (by decide))⟩

/-- C5: a comparison one of whose operands is a reference to the end-of-stream
sentinel (`isEOF` holds for it) is not flagged, whatever the other operand. -/
theorem eof_operand_not_flagged (lib : GoLib) (pass : Pass) (X Y : Expr) (OpPos : Pos)
    (Op : Token) (h : isEOF X pass.TypesInfo = true ∨ isEOF Y pass.TypesInfo = true) :
    inspectComparision lib pass (.expr (.BinaryExpr X OpPos Op Y)) = .ok (true, []) := by
  unfold inspectComparision
  simp only
  split
  · rfl
  · split
    · rfl
    · have heof : (isEOF X pass.TypesInfo || isEOF Y pass.TypesInfo) = true := by
        rcases h with h | h <;> simp [h]
      simp [heof]

/-- C5, on `err == io.EOF`, whose left operand is error-capable. -/
theorem eof_operand_not_flagged_witness :
    isError (.Ident ⟨1, "err"⟩) passErrEOF.TypesInfo = .ok true ∧
    isEOF (.SelectorExpr (.Ident ⟨8, "io"⟩) ⟨11, "EOF"⟩) passErrEOF.TypesInfo = true ∧
    inspectComparision sampleLib passErrEOF (.expr cmpErrEOF) = .ok (true, []) :=
  ⟨by rfl, by decide,
    eof_operand_not_flagged sampleLib passErrEOF (.Ident ⟨1, "err"⟩)
      (.SelectorExpr (.Ident ⟨8, "io"⟩) ⟨11, "EOF"⟩) 5 .EQL (Or.inr (by decide))⟩

/-- C6: a comparison for both of whose operands `isError` is false is not
flagged: the check returns normally and reports nothing. -/
theorem no_error_operand_not_flagged (lib : GoLib) (pass : Pass) (X Y : Expr) (OpPos : Pos)
    (Op : Token) (hX : isError X pass.TypesInfo = .ok false)
    (hY : isError Y pass.TypesInfo = .ok false) :
    inspectComparision lib pass (.expr (.BinaryExpr X OpPos Op Y)) = .ok (true, []) := by
  unfold inspectComparision
  simp only
  split
  · rfl
  · split
    · rfl
    · split
      · rfl
      · simp [neitherIsError, hX, hY]

/-- C6, on `x == y` with both operands of type `int`. -/
theorem no_error_operand_not_flagged_witness :
    isError (.Ident ⟨1, "x"⟩) (passAllInts "x == y").TypesInfo = .ok false ∧
    isError (.Ident ⟨6, "y"⟩) (passAllInts "x == y").TypesInfo = .ok false ∧
    inspectComparision sampleLib (passAllInts "x == y") (.expr cmpXY) = .ok (true, []) :=
  ⟨by rfl, by rfl,
    no_error_operand_not_flagged sampleLib (passAllInts "x == y") (.Ident ⟨1, "x"⟩)
      (.Ident ⟨6, "y"⟩) 3 .EQL (by rfl) (by rfl)⟩

/-- C7: a node that is not a binary expression with operator `==` or `!=` (any
other node, and any binary expression with another operator) is not flagged,
whatever its operands. -/
theorem only_comparisons_flagged (lib : GoLib) (pass : Pass) (n : Node)
    (h : ∀ X OpPos Op Y, n = .expr (.BinaryExpr X OpPos Op Y) → Op ≠ .EQL ∧ Op ≠ .NEQ) :
    inspectComparision lib pass n = .ok (true, []) := by
  unfold inspectComparision
  split
  · rename_i X OpPos Op Y
    have hop := h X OpPos Op Y rfl
    simp [hop.1, hop.2]
  · rfl

/-- C7, on `err1 + err2` with both operands error-capable, on a call expression,
on a node that is no expression, and on the nil node. -/
theorem only_comparisons_flagged_witness :
    isError (.Ident ⟨1, "err1"⟩) (passAllErrors "err1 + err2").TypesInfo = .ok true ∧
    isError (.Ident ⟨8, "err2"⟩) (passAllErrors "err1 + err2").TypesInfo = .ok true ∧
    inspectComparision sampleLib (passAllErrors "err1 + err2") (.expr sumErr1Err2)
      = .ok (true, []) ∧
    inspectComparision sampleLib (passAllErrors "f(err1)")
      (.expr (.CallExpr (.Ident ⟨1, "f"⟩) 2 [.Ident ⟨3, "err1"⟩] 0 7)) = .ok (true, []) ∧
    inspectComparision sampleLib (passAllErrors "return err1") (.other 1 12) = .ok (true, []) ∧
    inspectComparision sampleLib (passAllErrors "err1") .nil = .ok (true, []) :=
  ⟨by rfl, by rfl,
    only_comparisons_flagged sampleLib (passAllErrors "err1 + err2") (.expr sumErr1Err2)
      (by intro X OpPos Op Y h; cases h; exact ⟨by decide, by decide⟩),
    only_comparisons_flagged sampleLib (passAllErrors "f(err1)")
      (.expr (.CallExpr (.Ident ⟨1, "f"⟩) 2 [.Ident ⟨3, "err1"⟩] 0 7))
      (by intro X OpPos Op Y h; cases h),
    only_comparisons_flagged sampleLib (passAllErrors "return err1") (.other 1 12)
      (by intro X OpPos Op Y h; cases h),
    only_comparisons_flagged sampleLib (passAllErrors "err1") .nil
      (by intro X OpPos Op Y h; cases h)⟩

/-! ## Flagged comparisons -/

/-- A comparison that passes the three gates, with `isError` true for the left
operand, or false for the left and true for the right one, is reported once:
one diagnostic at the start of the comparison, with one fix holding one edit
that spans the comparison. -/
theorem flagged_comparison_reports_once (lib : GoLib) (pass : Pass) (X Y : Expr)
    (OpPos : Pos) (Op : Token) (hOp : Op = .EQL ∨ Op = .NEQ)
    (hNilX : (pass.TypesInfo.TypesAt X).IsNil = false)
    (hNilY : (pass.TypesInfo.TypesAt Y).IsNil = false)
    (hEofX : isEOF X pass.TypesInfo = false) (hEofY : isEOF Y pass.TypesInfo = false)
    (hErr : isError X pass.TypesInfo = .ok true ∨
      (isError X pass.TypesInfo = .ok false ∧ isError Y pass.TypesInfo = .ok true)) :
    ∃ d fix edit,
      inspectComparision lib pass (.expr (.BinaryExpr X OpPos Op Y)) = .ok (true, [d]) ∧
      d.Pos = (Expr.BinaryExpr X OpPos Op Y).Pos ∧
      d.SuggestedFixes = [fix] ∧ fix.TextEdits = [edit] ∧
      edit.Pos = (Expr.BinaryExpr X OpPos Op Y).Pos ∧
      edit.End = (Expr.BinaryExpr X OpPos Op Y).End := by
  have hn : neitherIsError X Y pass.TypesInfo = .ok false := by
    rcases hErr with h | ⟨h1, h2⟩
    · simp [neitherIsError, h]
    · simp [neitherIsError, h1, h2]
  refine ⟨comparisonDiagnostic lib pass X OpPos Op Y, _, _, ?_, rfl, rfl, rfl, rfl, rfl⟩
  rw [inspectComparision_gated lib pass X Y OpPos Op hOp hNilX hNilY hEofX hEofY, hn]

/-- C1, at `x == err` with nothing recorded for `x` and `err` of type `error`:
the operator is `==`, neither operand is nil-typed, neither is the end-of-stream
sentinel, the right operand is error-capable, and yet the check panics in
`isError` on the left operand and reports nothing. -/
theorem unresolved_left_operand_panics (lib : GoLib) :
    (passXErr.TypesInfo.TypesAt (.Ident ⟨1, "x"⟩)).IsNil = false ∧
    (passXErr.TypesInfo.TypesAt (.Ident ⟨6, "err"⟩)).IsNil = false ∧
    isEOF (.Ident ⟨1, "x"⟩) passXErr.TypesInfo = false ∧
    isEOF (.Ident ⟨6, "err"⟩) passXErr.TypesInfo = false ∧
    isError (.Ident ⟨6, "err"⟩) passXErr.TypesInfo = .ok true ∧
    inspectComparision lib passXErr (.expr cmpXErr) = .error .nilDereference ∧
    reported (inspectComparision lib passXErr (.expr cmpXErr)) = [] :=
  ⟨by decide, by decide, by decide, by decide, by rfl, by rfl, by rfl⟩

/-- C2, at `err == pkg.ErrFoo`: the comparison is flagged, the source text of
the operands is `err` and `pkg.ErrFoo`, and the replacement text of the edit is
`errors.Is(err, &` followed by `pkg ErrFoo` between braces and `)`, which is not
`errors.Is(err, pkg.ErrFoo)`. -/
theorem selector_operand_replacement (lib : GoLib) :
    render passErrPkgErrFoo.Fset (.Ident ⟨1, "err"⟩) = "err" ∧
    render passErrPkgErrFoo.Fset selPkgErrFoo = "pkg.ErrFoo" ∧
    (reported (inspectComparision lib passErrPkgErrFoo (.expr cmpErrPkgErrFoo))).map
      (fun d => d.SuggestedFixes.map (fun f => f.TextEdits.map (fun e => e.NewText)))
      = [[["errors.Is(err, &\x7bpkg ErrFoo\x7d)"]]] ∧
    "errors.Is(err, &\x7bpkg ErrFoo\x7d)" ≠
      "" ++ "errors.Is(" ++ render passErrPkgErrFoo.Fset (.Ident ⟨1, "err"⟩) ++ ", " ++
        render passErrPkgErrFoo.Fset selPkgErrFoo ++ ")" :=
  ⟨by rfl, by rfl, by rfl, by decide⟩

/-! ## Operands without type information -/

/-- The nil check is false for an operand `Types` has no entry for. -/
theorem IsNil_of_missing (info : Info) (e : Expr) (h : info.Types e = none) :
    (info.TypesAt e).IsNil = false := by
  simp [Info.TypesAt, h, TypeAndValue.zero, TypeAndValue.IsNil]

/-- The nil check is false for an entry of `Types` that holds no type. -/
theorem IsNil_of_no_type (tv : TypeAndValue) (h : tv.typ = none) : tv.IsNil = false := by
  simp [TypeAndValue.IsNil, h]

/-- On an identifier with no bound object `asImportedName` reports failure. -/
theorem asImportedName_unbound (info : Info) (id : Ident) (h : info.ObjectOf id = none) :
    asImportedName (.Ident id) info = ("", false) := by
  simp [asImportedName, h]

/-- The sentinel check is false for a selector on an identifier with no bound object. -/
theorem isEOF_unbound (info : Info) (id sel : Ident) (h : info.ObjectOf id = none) :
    isEOF (.SelectorExpr (.Ident id) sel) info = false := by
  simp [isEOF, asImportedName_unbound info id h]

/-- On an operand with no recorded type `isError` panics. -/
theorem isError_of_no_type (info : Info) (e : Expr) (h : info.TypeOf e = none) :
    isError e info = .error .nilDereference := by
  simp [isError, h]

/-- C8, at `x == y` with an empty type table: the nil check and `isEOF` are false
for both operands, but `isError` panics on each of them instead of returning
false, and `inspectComparision` panics instead of returning. -/
theorem unresolved_operand_isError_panics (lib : GoLib) :
    ((passNoTypes "x == y").TypesInfo.TypesAt (.Ident ⟨1, "x"⟩)).IsNil = false ∧
    ((passNoTypes "x == y").TypesInfo.TypesAt (.Ident ⟨6, "y"⟩)).IsNil = false ∧
    isEOF (.Ident ⟨1, "x"⟩) (passNoTypes "x == y").TypesInfo = false ∧
    isEOF (.Ident ⟨6, "y"⟩) (passNoTypes "x == y").TypesInfo = false ∧
    isError (.Ident ⟨1, "x"⟩) (passNoTypes "x == y").TypesInfo = .error .nilDereference ∧
    isError (.Ident ⟨6, "y"⟩) (passNoTypes "x == y").TypesInfo = .error .nilDereference ∧
    inspectComparision lib (passNoTypes "x == y") (.expr cmpXY) = .error .nilDereference :=
  ⟨by decide, by decide, by decide, by decide, by rfl, by rfl, by rfl⟩

/-! ## The result of the visitor -/

/-- A run of `inspectComparision` that returns, returns true. -/
theorem inspectComparision_result (lib : GoLib) (pass : Pass) (n : Node) (b : Bool)
    (ds : List Diagnostic) (h : inspectComparision lib pass n = .ok (b, ds)) : b = true := by
  unfold inspectComparision at h
  split at h
  · split at h
    · injection h with h; exact (Prod.mk.inj h).1.symm
    · split at h
      · injection h with h; exact (Prod.mk.inj h).1.symm
      · split at h
        · injection h with h; exact (Prod.mk.inj h).1.symm
        · split at h
          · cases h
          · injection h with h; exact (Prod.mk.inj h).1.symm
          · injection h with h; exact (Prod.mk.inj h).1.symm
  · injection h with h; exact (Prod.mk.inj h).1.symm

/-- A run of `inspectComparision` returns as soon as `isError` returns on the
left operand and, where it answers false there, on the right operand. -/
theorem inspectComparision_returns (lib : GoLib) (pass : Pass) (X Y : Expr) (OpPos : Pos)
    (Op : Token) (bx : Bool) (hX : isError X pass.TypesInfo = .ok bx)
    (hY : bx = false → ∃ b, isError Y pass.TypesInfo = .ok b) :
    ∃ ds, inspectComparision lib pass (.expr (.BinaryExpr X OpPos Op Y)) = .ok (true, ds) := by
  unfold inspectComparision
  simp only
  split
  · exact ⟨_, rfl⟩
  · split
    · exact ⟨_, rfl⟩
    · split
      · exact ⟨_, rfl⟩
      · cases bx with
        | true =>
          exact ⟨[comparisonDiagnostic lib pass X OpPos Op Y], by simp [neitherIsError, hX]⟩
        | false =>
          obtain ⟨b, hb⟩ := hY rfl
          cases b with
          | true =>
            exact ⟨[comparisonDiagnostic lib pass X OpPos Op Y],
              by simp [neitherIsError, hX, hb]⟩
          | false => exact ⟨[], by simp [neitherIsError, hX, hb]⟩

/-- C9, at `err != otherSentinel` with an empty type table: the check does not
return true, it panics in `isError`. -/
theorem inspectComparision_no_result (lib : GoLib) :
    inspectComparision lib (passNoTypes "err != otherSentinel") (.expr cmpErrOther)
      = .error .nilDereference ∧
    ∀ ds, inspectComparision lib (passNoTypes "err != otherSentinel") (.expr cmpErrOther)
      ≠ .ok (true, ds) :=
  ⟨by rfl, by intro ds h; cases h⟩

/-! ## The error capability -/

/-- C10 as stated fails at an operand of type `MyErr`, declared as
`type MyErr interface { Error() string }`: its method set is exactly one method
`Error` without parameters and with a single string result, and `isError`
returns false for it. -/
theorem own_Error_method_not_capable :
    (∃ t, myErrInfo.TypeOf myErrOperand = some t ∧ specErrorCapability t = true) ∧
    isError myErrOperand myErrInfo = .ok false ∧
    ¬ (isError myErrOperand myErrInfo = .ok true ↔
        ∃ t, myErrInfo.TypeOf myErrOperand = some t ∧ specErrorCapability t = true) := by
  have h1 : ∃ t, myErrInfo.TypeOf myErrOperand = some t ∧ specErrorCapability t = true :=
    ⟨myErrType, by rfl, by decide⟩
  have h2 : isError myErrOperand myErrInfo = .ok false := by rfl
  refine ⟨h1, h2, ?_⟩
  intro h
  have h3 := h.mpr h1
  rw [h2] at h3
  cases h3

/-- C10, amended: `isError` returns true for an operand exactly when a static
type is recorded for it, the underlying type of that type is an interface whose
method set consists of exactly one method, and the full name of that method is
`(error).Error`, the name of the method of the predeclared interface `error`. -/
theorem isError_iff (v : Expr) (info : Info) :
    isError v info = .ok true ↔
      ∃ t m, info.TypeOf v = some t ∧ t.Underlying = .Interface [m] ∧
        m.FullName = "(error).Error" := by
  unfold isError
  cases hT : info.TypeOf v with
  | none => simp
  | some t =>
    simp only [Option.some.injEq, exists_eq_left']
    cases hU : t.Underlying with
    | Interface allMethods =>
      rcases allMethods with _ | ⟨m, _ | ⟨m2, rest⟩⟩ <;> simp [hU]
    | Basic _ => simp [hU]
    | Pointer _ => simp [hU]
    | Slice _ => simp [hU]
    | Composite _ => simp [hU]
    | Named _ _ _ _ => simp [hU]

/-- The predeclared `error` is error-capable, and so is an interface that only
embeds it. -/
theorem isError_universe_error :
    isError (.Ident ⟨1, "err"⟩) (passAllErrors "err").TypesInfo = .ok true ∧
    specErrorCapability universeError = true ∧
    (Typ.Named (some samplePkg) "Wrapped" (.Interface [errorMethod]) []).Underlying
      = .Interface [errorMethod] ∧
    errorMethod.FullName = "(error).Error" :=
  ⟨by rfl, by decide, by rfl, by decide⟩

/-! ## The end-of-stream sentinel -/

/-- An operand for which `isError` returns true is not nil-typed. -/
theorem IsNil_of_isError (info : Info) (e : Expr) (h : isError e info = .ok true) :
    (info.TypesAt e).IsNil = false := by
  cases hT : info.Types e with
  | none => exact IsNil_of_missing info e hT
  | some tv =>
    have hTypeOf : info.TypeOf e = tv.typ := by simp [Info.TypeOf, hT]
    cases htyp : tv.typ with
    | none => simp [Info.TypesAt, hT, TypeAndValue.IsNil, htyp]
    | some t =>
      by_cases hnil : t = .Basic .UntypedNil
      · subst hnil
        rw [isError, hTypeOf, htyp] at h
        simp [Typ.Underlying] at h
      · simp [Info.TypesAt, hT, TypeAndValue.IsNil, htyp, hnil]

/-- C11: `isEOF` is false for every expression that is not a selector, for every
selector whose selected name is not `EOF`, and for every selector whose base is
not an identifier bound to an imported package; consequently a comparison
`err == eof` (or `err != eof`) of an error-capable identifier `err` with a
plain identifier `eof` that is not nil-typed, such as a local variable holding
`io.EOF`, is flagged. -/
theorem isEOF_only_package_selector (lib : GoLib) (pass : Pass) (err eof : Ident)
    (OpPos : Pos) (Op : Token) :
    (∀ ex, (∀ X Sel, ex ≠ .SelectorExpr X Sel) → isEOF ex pass.TypesInfo = false) ∧
    (∀ X Sel, Sel.Name ≠ "EOF" → isEOF (.SelectorExpr X Sel) pass.TypesInfo = false) ∧
    (∀ X Sel,
      (∀ id imported,
        ¬ (X = .Ident id ∧ pass.TypesInfo.ObjectOf id = some (.PkgName imported))) →
      isEOF (.SelectorExpr X Sel) pass.TypesInfo = false) ∧
    ((Op = .EQL ∨ Op = .NEQ) →
      isError (.Ident err) pass.TypesInfo = .ok true →
      (pass.TypesInfo.TypesAt (.Ident eof)).IsNil = false →
      inspectComparision lib pass (.expr (.BinaryExpr (.Ident err) OpPos Op (.Ident eof))) =
        .ok (true, [comparisonDiagnostic lib pass (.Ident err) OpPos Op (.Ident eof)])) := by
  refine ⟨?_, ?_, ?_, ?_⟩
  · intro ex hex
    cases ex with
    | SelectorExpr X Sel => exact absurd rfl (hex X Sel)
    | _ => rfl
  · intro X Sel hSel
    simp [isEOF, hSel]
  · intro X Sel hX
    unfold isEOF
    simp only
    split
    · rfl
    · cases X with
      | Ident id =>
        cases hObj : pass.TypesInfo.ObjectOf id with
        | none => simp [asImportedName, hObj]
        | some obj =>
          cases obj with
          | PkgName imported => exact absurd ⟨rfl, hObj⟩ (hX id imported)
          | Other typ => simp [asImportedName, hObj]
      | _ => simp [asImportedName]
  · intro hOp hErr hNil
    rw [inspectComparision_gated lib pass _ _ OpPos Op hOp
      (IsNil_of_isError pass.TypesInfo _ hErr) hNil rfl rfl]
    simp [neitherIsError, hErr]

/-- C11, on `err == eof` where `eof` is a variable of type `error`: `isEOF` is
false for the identifier `eof`, for the selector `pkg.ErrFoo` and for the
selector `io.EOF` when `io` is bound to no package, and the comparison is
reported. -/
theorem isEOF_only_package_selector_witness :
    isEOF (.Ident ⟨8, "eof"⟩) (passAllErrors "err == eof").TypesInfo = false ∧
    isEOF (.SelectorExpr (.Ident ⟨8, "pkg"⟩) ⟨12, "ErrFoo"⟩)
      (passAllErrors "err == eof").TypesInfo = false ∧
    isEOF (.SelectorExpr (.Ident ⟨8, "io"⟩) ⟨11, "EOF"⟩)
      (passAllErrors "err == eof").TypesInfo = false ∧
    inspectComparision sampleLib (passAllErrors "err == eof") (.expr cmpErrEofAlias) =
      .ok (true, [comparisonDiagnostic sampleLib (passAllErrors "err == eof")
        (.Ident ⟨1, "err"⟩) 5 .EQL (.Ident ⟨8, "eof"⟩)]) :=
  have h := isEOF_only_package_selector sampleLib (passAllErrors "err == eof")
    ⟨1, "err"⟩ ⟨8, "eof"⟩ 5 .EQL
  ⟨h.1 (.Ident ⟨8, "eof"⟩) (by intro X Sel hx; cases hx),
    h.2.1 (.Ident ⟨8, "pkg"⟩) ⟨12, "ErrFoo"⟩ (by decide),
    h.2.2.1 (.Ident ⟨8, "io"⟩) ⟨11, "EOF"⟩
      (by
        intro id imported hx
        obtain ⟨h1, h2⟩ := hx
        cases h1
        cases h2),
    h.2.2.2 (Or.inl rfl) (by rfl) (by decide)⟩

/-- C17: `isEOF` is true exactly for a selector whose selected name is `EOF` and
whose base is an identifier bound to a package name whose imported package is
named `io`; neither the local name of the import nor the import path takes part. -/
theorem isEOF_iff (ex : Expr) (info : Info) :
    isEOF ex info = true ↔
      ∃ id Sel imported, ex = .SelectorExpr (.Ident id) Sel ∧ Sel.Name = "EOF" ∧
        info.ObjectOf id = some (.PkgName imported) ∧ imported.name = "io" := by
  constructor
  · intro h
    cases ex with
    | SelectorExpr X Sel =>
      unfold isEOF at h
      simp only at h
      split at h
      · cases h
      · rename_i hSel
        cases X with
        | Ident id =>
          cases hObj : info.ObjectOf id with
          | none => simp [asImportedName, hObj] at h
          | some obj =>
            cases obj with
            | PkgName imported =>
              refine ⟨id, Sel, imported, rfl, ?_, hObj, ?_⟩
              · simpa using hSel
              · simpa [asImportedName, hObj] using h
            | Other typ => simp [asImportedName, hObj] at h
        | _ => simp [asImportedName] at h
    | _ => simp [isEOF] at h
  · rintro ⟨id, Sel, imported, rfl, hSel, hObj, hName⟩
    simp [isEOF, asImportedName, hSel, hObj, hName]

/-- The sentinel check holds for `stdio.EOF` under the import `stdio "io"`, and
for `fake.EOF` where `fake` imports `example.com/fake/io`, a package named `io`. -/
theorem isEOF_alias_and_namesake :
    isEOF selStdioEOF stdioInfo = true ∧ isEOF selFakeEOF fakeInfo = true :=
  ⟨by decide, by decide⟩

/-! ## Concrete error types -/

/-- C18: `isError` returns false for every operand whose static type has an
underlying type that is not an interface, whatever methods the type has;
consequently a comparison both of whose operands have such types is not flagged. -/
theorem isError_false_of_concrete (lib : GoLib) (pass : Pass) (X Y : Expr) (OpPos : Pos)
    (Op : Token) (tX tY : Typ)
    (hX : pass.TypesInfo.TypeOf X = some tX) (hY : pass.TypesInfo.TypeOf Y = some tY)
    (hXc : ∀ allMethods, tX.Underlying ≠ .Interface allMethods)
    (hYc : ∀ allMethods, tY.Underlying ≠ .Interface allMethods) :
    isError X pass.TypesInfo = .ok false ∧ isError Y pass.TypesInfo = .ok false ∧
    inspectComparision lib pass (.expr (.BinaryExpr X OpPos Op Y)) = .ok (true, []) := by
  have key : ∀ (e : Expr) (t : Typ), pass.TypesInfo.TypeOf e = some t →
      (∀ allMethods, t.Underlying ≠ .Interface allMethods) →
      isError e pass.TypesInfo = .ok false := by
    intro e t ht hc
    unfold isError
    rw [ht]
    cases hU : t.Underlying with
    | Interface allMethods => exact absurd hU (hc allMethods)
    | Basic _ => simp [hU]
    | Pointer _ => simp [hU]
    | Slice _ => simp [hU]
    | Composite _ => simp [hU]
    | Named _ _ _ _ => simp [hU]
  have h1 := key X tX hX hXc
  have h2 := key Y tY hY hYc
  refine ⟨h1, h2, ?_⟩
  unfold inspectComparision
  simp only
  split
  · rfl
  · split
    · rfl
    · split
      · rfl
      · simp [neitherIsError, h1, h2]

/-- C18, on `e1 == e2` with both operands of type `*MyError`, whose method set
is exactly `Error() string`. -/
theorem isError_false_of_concrete_witness :
    specErrorCapability ptrMyError = true ∧
    isError (.Ident ⟨1, "e1"⟩) (passAllPtrMyError "e1 == e2").TypesInfo = .ok false ∧
    isError (.Ident ⟨7, "e2"⟩) (passAllPtrMyError "e1 == e2").TypesInfo = .ok false ∧
    inspectComparision sampleLib (passAllPtrMyError "e1 == e2") (.expr cmpE1E2)
      = .ok (true, []) :=
  ⟨by decide,
    isError_false_of_concrete sampleLib (passAllPtrMyError "e1 == e2") (.Ident ⟨1, "e1"⟩)
      (.Ident ⟨7, "e2"⟩) 4 .EQL ptrMyError ptrMyError (by rfl) (by rfl)
      (by intro ms h; cases h) (by intro ms h; cases h)⟩

/-! ## The texts of a diagnostic -/

/-- A plain character is written by `appendEscapedRune` as it is. -/
theorem appendEscapedRune_plain (lib : GoLib) (c : Char)
    (h : 32 ≤ c.toNat ∧ c.toNat ≤ 126 ∧ c.toNat ≠ 34 ∧ c.toNat ≠ 92) :
    appendEscapedRune lib c = String.singleton c := by
  simp [appendEscapedRune, h.1, h.2.1, h.2.2.1, h.2.2.2]

/-- Appending the pieces of a list one after the other onto a start. -/
theorem foldl_append_eq (l : List String) (acc : String) :
    List.foldl (fun r s => r ++ s) acc l = acc ++ String.join l := by
  induction l generalizing acc with
  | nil => simp [String.join]
  | cons a l ih =>
    simp only [List.foldl_cons, String.join]
    rw [ih, ih ("" ++ a)]
    simp [String.append_assoc]

/-- Escaping plain characters one by one gives the characters back. -/
theorem join_escaped_plain (lib : GoLib) (l : List Char)
    (h : ∀ c ∈ l, 32 ≤ c.toNat ∧ c.toNat ≤ 126 ∧ c.toNat ≠ 34 ∧ c.toNat ≠ 92) :
    String.join (l.map (appendEscapedRune lib)) = String.mk l := by
  induction l with
  | nil => rfl
  | cons a l ih =>
    have ha := appendEscapedRune_plain lib a (h a (List.mem_cons_self a l))
    have hl := ih (fun c hc => h c (List.mem_cons_of_mem a hc))
    simp only [List.map_cons, String.join, List.foldl_cons]
    rw [foldl_append_eq, hl, ha]
    apply String.ext
    simp [String.singleton]

/-- On plain text `strconv.Quote` only adds the two double quotes. -/
theorem Quote_plain (lib : GoLib) (s : String) (h : isPlain s = true) :
    Quote lib s = dquote ++ s ++ dquote := by
  unfold Quote
  rw [join_escaped_plain lib s.toList]
  · rfl
  · intro c hc
    simp only [isPlain, List.all_eq_true, decide_eq_true_eq] at h
    exact h c hc

/-- C12 as stated fails: for `err1 == err2` the message starts with
`do not compare errors directly, use errors.Is() instead: `, not with the
sentence of the claim; and for the comparison of `err` with `errors.New` on a
string literal the text after that start is not the source text between two
double quotes, since the double quotes inside it are written with a backslash. -/
theorem message_differs :
    (reported (inspectComparision sampleLib (passAllErrors "err1 == err2")
        (.expr cmpErr1Err2))).map (fun d => d.Message)
      = ["do not compare errors directly, use errors.Is() instead: " ++
          dquote ++ "err1 == err2" ++ dquote] ∧
    (reported (inspectComparision sampleLib (passAllErrors "err1 == err2")
        (.expr cmpErr1Err2))).map (fun d => d.Message)
      ≠ ["do not compare errors directly, use a semantic equivalence check instead: " ++
          dquote ++ render (passAllErrors "err1 == err2").Fset cmpErr1Err2 ++ dquote] ∧
    render passErrNew.Fset cmpErrNew = srcErrNew ∧
    (reported (inspectComparision sampleLib passErrNew (.expr cmpErrNew))).map
        (fun d => d.Message)
      = ["do not compare errors directly, use errors.Is() instead: " ++
          dquote ++ "err == errors.New(\\" ++ dquote ++ "x\\" ++ dquote ++ ")" ++ dquote] ∧
    (reported (inspectComparision sampleLib passErrNew (.expr cmpErrNew))).map
        (fun d => d.Message)
      ≠ ["do not compare errors directly, use errors.Is() instead: " ++
          dquote ++ render passErrNew.Fset cmpErrNew ++ dquote] :=
  ⟨by rfl, by decide, by rfl, by rfl, by decide⟩

/-- C12, amended: the message of every reported diagnostic is
`do not compare errors directly, use errors.Is() instead: ` followed by the
source text of the comparison as `strconv.Quote` writes it; where that text is
plain, this is the text between two double quotes. -/
theorem diagnostic_message (lib : GoLib) (pass : Pass) (X Y : Expr) (OpPos : Pos) (Op : Token)
    (d : Diagnostic)
    (hd : d ∈ reported (inspectComparision lib pass (.expr (.BinaryExpr X OpPos Op Y)))) :
    d.Message = "do not compare errors directly, use errors.Is() instead: " ++
      Quote lib (render pass.Fset (.BinaryExpr X OpPos Op Y)) ∧
    (isPlain (render pass.Fset (.BinaryExpr X OpPos Op Y)) = true →
      d.Message = "do not compare errors directly, use errors.Is() instead: " ++
        dquote ++ render pass.Fset (.BinaryExpr X OpPos Op Y) ++ dquote) := by
  have hdiag := reported_subset lib pass X Y OpPos Op d hd
  subst hdiag
  refine ⟨rfl, ?_⟩
  intro hplain
  simp only [comparisonDiagnostic]
  rw [Quote_plain lib _ hplain]
  simp [String.append_assoc]

/-- C12, amended, on `err1 == err2`. -/
theorem diagnostic_message_witness :
    (comparisonDiagnostic sampleLib (passAllErrors "err1 == err2")
        (.Ident ⟨1, "err1"⟩) 6 .EQL (.Ident ⟨9, "err2"⟩)).Message =
      "do not compare errors directly, use errors.Is() instead: " ++
        dquote ++ "err1 == err2" ++ dquote :=
  (diagnostic_message sampleLib (passAllErrors "err1 == err2") (.Ident ⟨1, "err1"⟩)
    (.Ident ⟨9, "err2"⟩) 6 .EQL _ (by decide)).2 (by decide)

/-- C13 as stated fails at the comparison of `err` with `errors.New` on a
string literal: the comparison is reported with one fix holding one edit, and
the description of the fix is not `should replace`, the source text between
double quotes, `with`, and the replacement text between double quotes. -/
theorem description_differs :
    ∃ d fix edit,
      reported (inspectComparision sampleLib passErrNew (.expr cmpErrNew)) = [d] ∧
      d.SuggestedFixes = [fix] ∧ fix.TextEdits = [edit] ∧
      fix.Message ≠ "should replace " ++ dquote ++ render passErrNew.Fset cmpErrNew ++ dquote ++
        " with " ++ dquote ++ edit.NewText ++ dquote :=
  ⟨comparisonDiagnostic sampleLib passErrNew (.Ident ⟨1, "err"⟩) 5 .EQL callErrorsNew, _, _,
    by rfl, rfl, rfl, by decide⟩

/-- C13, amended: every fix of a reported diagnostic holds one edit, and its
description is `should replace `, the source text of the comparison as
`strconv.Quote` writes it, ` with `, and the replacement text as `strconv.Quote`
writes it; where both texts are plain, each stands unchanged between two double
quotes. -/
theorem fix_description (lib : GoLib) (pass : Pass) (X Y : Expr) (OpPos : Pos) (Op : Token)
    (d : Diagnostic) (fix : SuggestedFix)
    (hd : d ∈ reported (inspectComparision lib pass (.expr (.BinaryExpr X OpPos Op Y))))
    (hfix : fix ∈ d.SuggestedFixes) :
    ∃ edit, fix.TextEdits = [edit] ∧
      fix.Message = "should replace " ++
        Quote lib (render pass.Fset (.BinaryExpr X OpPos Op Y)) ++ " with " ++
        Quote lib edit.NewText ∧
      (isPlain (render pass.Fset (.BinaryExpr X OpPos Op Y)) = true →
        isPlain edit.NewText = true →
        fix.Message = "should replace " ++ dquote ++
          render pass.Fset (.BinaryExpr X OpPos Op Y) ++ dquote ++ " with " ++
          dquote ++ edit.NewText ++ dquote) := by
  have hdiag := reported_subset lib pass X Y OpPos Op d hd
  subst hdiag
  simp only [comparisonDiagnostic, List.mem_singleton] at hfix
  subst hfix
  refine ⟨_, rfl, rfl, ?_⟩
  intro hT hN
  simp only
  rw [Quote_plain lib _ hT, Quote_plain lib _ hN]
  simp [String.append_assoc]

/-- C13, amended, on `err1 == err2`. -/
theorem fix_description_witness :
    ∃ edit : TextEdit,
      [({ Pos := 1, End := 13, NewText := "errors.Is(err1, err2)" } : TextEdit)] = [edit] ∧
      "should replace " ++ Quote sampleLib "err1 == err2" ++ " with " ++
          Quote sampleLib "errors.Is(err1, err2)" =
        "should replace " ++
          Quote sampleLib (render (passAllErrors "err1 == err2").Fset
            (.BinaryExpr (.Ident ⟨1, "err1"⟩) 6 .EQL (.Ident ⟨9, "err2"⟩))) ++ " with " ++
          Quote sampleLib edit.NewText ∧
      (isPlain (render (passAllErrors "err1 == err2").Fset
            (.BinaryExpr (.Ident ⟨1, "err1"⟩) 6 .EQL (.Ident ⟨9, "err2"⟩))) = true →
        isPlain edit.NewText = true →
        "should replace " ++ Quote sampleLib "err1 == err2" ++ " with " ++
            Quote sampleLib "errors.Is(err1, err2)" =
          "should replace " ++ dquote ++
            render (passAllErrors "err1 == err2").Fset
              (.BinaryExpr (.Ident ⟨1, "err1"⟩) 6 .EQL (.Ident ⟨9, "err2"⟩)) ++ dquote ++
            " with " ++ dquote ++ edit.NewText ++ dquote) :=
  fix_description sampleLib (passAllErrors "err1 == err2") (.Ident ⟨1, "err1"⟩)
    (.Ident ⟨9, "err2"⟩) 6 .EQL
    (comparisonDiagnostic sampleLib (passAllErrors "err1 == err2")
      (.Ident ⟨1, "err1"⟩) 6 .EQL (.Ident ⟨9, "err2"⟩))
    { Message := "should replace " ++ Quote sampleLib "err1 == err2" ++ " with " ++
        Quote sampleLib "errors.Is(err1, err2)"
      TextEdits := [{ Pos := 1, End := 13, NewText := "errors.Is(err1, err2)" }] }
    (by decide) (by decide)

/-! ## Running the check on the replacement -/

/-- For `err != otherSentinel`, whose operands are identifiers, the replacement
text is the source text of the negated call `!errors.Is(err, otherSentinel)`,
and that node, put where the comparison stood, is not flagged. -/
theorem replacement_of_identifiers_reinspected :
    (reported (inspectComparision sampleLib (passAllErrors "err != otherSentinel")
        (.expr cmpErrOther))).map
      (fun d => d.SuggestedFixes.map (fun f => f.TextEdits.map (fun e => e.NewText)))
      = [[[render { base := 1, src := "!errors.Is(err, otherSentinel)" } notIsErrOther]]] ∧
    inspectComparision sampleLib (passAllErrors "!errors.Is(err, otherSentinel)")
      (.expr notIsErrOther) = .ok (true, []) :=
  ⟨by rfl, by rfl⟩

/-- What a comparison reports, in terms of the three gates. -/
theorem reported_comparison (lib : GoLib) (pass : Pass) (X Y : Expr) (OpPos : Pos)
    (Op : Token) (hOp : Op = .EQL ∨ Op = .NEQ) :
    reported (inspectComparision lib pass (.expr (.BinaryExpr X OpPos Op Y))) =
      if ((pass.TypesInfo.TypesAt X).IsNil || (pass.TypesInfo.TypesAt Y).IsNil) = true then []
      else if (isEOF X pass.TypesInfo || isEOF Y pass.TypesInfo) = true then []
      else
        match neitherIsError X Y pass.TypesInfo with
        | .ok false => [comparisonDiagnostic lib pass X OpPos Op Y]
        | _ => [] := by
  have hop : ¬ (Op ≠ .EQL ∧ Op ≠ .NEQ) := by
    rcases hOp with h | h <;> simp [h]
  unfold inspectComparision
  simp only [hop, if_false]
  by_cases hnil : ((pass.TypesInfo.TypesAt X).IsNil || (pass.TypesInfo.TypesAt Y).IsNil) = true
  · simp only [hnil, if_true, reported]
  · by_cases heof : (isEOF X pass.TypesInfo || isEOF Y pass.TypesInfo) = true
    · simp [hnil, heof, reported]
    · simp only [hnil, heof, if_false]
      cases hn : neitherIsError X Y pass.TypesInfo with
      | error p => simp [reported]
      | ok b => cases b <;> simp [reported]

/-- Where `isError` returns on both operands, the two orders of the operands
are flagged alike. -/
theorem flagged_symmetric_of_typed (lib : GoLib) (pass : Pass) (X Y : Expr) (p q : Pos)
    (Op : Token) (bx cy : Bool) (hX : isError X pass.TypesInfo = .ok bx)
    (hY : isError Y pass.TypesInfo = .ok cy) :
    reported (inspectComparision lib pass (.expr (.BinaryExpr X p Op Y))) ≠ [] ↔
      reported (inspectComparision lib pass (.expr (.BinaryExpr Y q Op X))) ≠ [] := by
  by_cases hOp : Op = .EQL ∨ Op = .NEQ
  · rw [reported_comparison lib pass X Y p Op hOp, reported_comparison lib pass Y X q Op hOp]
    have h1 : neitherIsError X Y pass.TypesInfo = .ok (!bx && !cy) := by
      cases bx <;> simp [neitherIsError, hX, hY]
    have h2 : neitherIsError Y X pass.TypesInfo = .ok (!cy && !bx) := by
      cases cy <;> simp [neitherIsError, hX, hY]
    rw [h1, h2, Bool.or_comm (pass.TypesInfo.TypesAt Y).IsNil,
      Bool.or_comm (isEOF Y pass.TypesInfo), Bool.and_comm (!cy)]
    by_cases hnil :
        ((pass.TypesInfo.TypesAt X).IsNil || (pass.TypesInfo.TypesAt Y).IsNil) = true
    · simp only [hnil, if_true]
    · by_cases heof : (isEOF X pass.TypesInfo || isEOF Y pass.TypesInfo) = true
      · simp only [hnil, heof, if_true, if_false]
      · simp only [hnil, heof, if_false]
        cases bx <;> cases cy <;> simp
  · have h1 : Op ≠ .EQL := fun h => hOp (Or.inl h)
    have h2 : Op ≠ .NEQ := fun h => hOp (Or.inr h)
    rw [inspectComparision_other_operator lib pass X Y p Op h1 h2,
      inspectComparision_other_operator lib pass Y X q Op h1 h2]

/-- C15, with `err` of type `error` and nothing recorded for `x`: the comparison
with `err` on the left and `x` on the right is flagged, the one with `x` on the
left and `err` on the right panics in `isError` and reports nothing. -/
theorem swapped_operands_differ (lib : GoLib) :
    inspectComparision lib passXErr
        (.expr (.BinaryExpr (.Ident ⟨6, "err"⟩) 3 .EQL (.Ident ⟨1, "x"⟩))) =
      .ok (true, [comparisonDiagnostic lib passXErr (.Ident ⟨6, "err"⟩) 3 .EQL
        (.Ident ⟨1, "x"⟩)]) ∧
    inspectComparision lib passXErr
        (.expr (.BinaryExpr (.Ident ⟨1, "x"⟩) 3 .EQL (.Ident ⟨6, "err"⟩))) =
      .error .nilDereference ∧
    reported (inspectComparision lib passXErr
        (.expr (.BinaryExpr (.Ident ⟨6, "err"⟩) 3 .EQL (.Ident ⟨1, "x"⟩)))) ≠ [] ∧
    reported (inspectComparision lib passXErr
        (.expr (.BinaryExpr (.Ident ⟨1, "x"⟩) 3 .EQL (.Ident ⟨6, "err"⟩)))) = [] :=
  ⟨by rfl, by rfl, by simp [show inspectComparision lib passXErr
        (.expr (.BinaryExpr (.Ident ⟨6, "err"⟩) 3 .EQL (.Ident ⟨1, "x"⟩))) =
      .ok (true, [comparisonDiagnostic lib passXErr (.Ident ⟨6, "err"⟩) 3 .EQL
        (.Ident ⟨1, "x"⟩)]) from rfl, reported], by rfl⟩

/-- C16: for every pair of operands and every type table, `X == Y` is flagged
exactly when `X != Y` is, and the replacement text of every edit reported for
`X != Y` is `!` followed by the replacement text of every edit reported for
`X == Y`. -/
theorem operator_only_negates (lib : GoLib) (pass : Pass) (X Y : Expr) (p q : Pos) :
    (reported (inspectComparision lib pass (.expr (.BinaryExpr X p .EQL Y))) ≠ [] ↔
      reported (inspectComparision lib pass (.expr (.BinaryExpr X q .NEQ Y))) ≠ []) ∧
    ∀ dE ∈ reported (inspectComparision lib pass (.expr (.BinaryExpr X p .EQL Y))),
      ∀ fE ∈ dE.SuggestedFixes, ∀ eE ∈ fE.TextEdits,
      ∀ dN ∈ reported (inspectComparision lib pass (.expr (.BinaryExpr X q .NEQ Y))),
      ∀ fN ∈ dN.SuggestedFixes, ∀ eN ∈ fN.TextEdits,
        eN.NewText = "!" ++ eE.NewText := by
  constructor
  · rw [reported_comparison lib pass X Y p .EQL (Or.inl rfl),
      reported_comparison lib pass X Y q .NEQ (Or.inr rfl)]
    by_cases hnil :
        ((pass.TypesInfo.TypesAt X).IsNil || (pass.TypesInfo.TypesAt Y).IsNil) = true
    · simp only [hnil, if_true]
    · by_cases heof : (isEOF X pass.TypesInfo || isEOF Y pass.TypesInfo) = true
      · simp only [hnil, heof, if_true, if_false]
      · simp only [hnil, heof, if_false]
        cases hn : neitherIsError X Y pass.TypesInfo with
        | error e => simp
        | ok b => cases b <;> simp
  · intro dE hdE fE hfE eE heE dN hdN fN hfN eN heN
    have h1 := reported_subset lib pass X Y p .EQL dE hdE
    have h2 := reported_subset lib pass X Y q .NEQ dN hdN
    subst h1
    subst h2
    simp only [comparisonDiagnostic, List.mem_singleton] at hfE hfN
    subst hfE
    subst hfN
    simp only [List.mem_singleton] at heE heN
    subst heE
    subst heN
    simp only [if_true, if_false, reduceCtorEq, String.append_assoc]
    congr 1

/-- C16, on `err1 == err2` and `err1 != err2`: both are flagged, with the
replacement texts `errors.Is(err1, err2)` and `!errors.Is(err1, err2)`. -/
theorem operator_only_negates_witness :
    reported (inspectComparision sampleLib (passAllErrors "err1 == err2")
      (.expr (.BinaryExpr (.Ident ⟨1, "err1"⟩) 6 .EQL (.Ident ⟨9, "err2"⟩)))) ≠ [] ∧
    reported (inspectComparision sampleLib (passAllErrors "err1 == err2")
      (.expr (.BinaryExpr (.Ident ⟨1, "err1"⟩) 6 .NEQ (.Ident ⟨9, "err2"⟩)))) ≠ [] ∧
    "!errors.Is(err1, err2)" = "!" ++ "errors.Is(err1, err2)" :=
  have h := operator_only_negates sampleLib (passAllErrors "err1 == err2")
    (.Ident ⟨1, "err1"⟩) (.Ident ⟨9, "err2"⟩) 6 6
  ⟨by decide, h.1.mp (by decide),
    h.2 (comparisonDiagnostic sampleLib (passAllErrors "err1 == err2")
        (.Ident ⟨1, "err1"⟩) 6 .EQL (.Ident ⟨9, "err2"⟩)) (by decide)
      { Message := "should replace " ++ Quote sampleLib "err1 == err2" ++ " with " ++
          Quote sampleLib "errors.Is(err1, err2)"
        TextEdits := [{ Pos := 1, End := 13, NewText := "errors.Is(err1, err2)" }] }
      (by decide) { Pos := 1, End := 13, NewText := "errors.Is(err1, err2)" } (by decide)
      (comparisonDiagnostic sampleLib (passAllErrors "err1 == err2")
        (.Ident ⟨1, "err1"⟩) 6 .NEQ (.Ident ⟨9, "err2"⟩)) (by decide)
      { Message := "should replace " ++ Quote sampleLib "err1 == err2" ++ " with " ++
          Quote sampleLib "!errors.Is(err1, err2)"
        TextEdits := [{ Pos := 1, End := 13, NewText := "!errors.Is(err1, err2)" }] }
      (by decide) { Pos := 1, End := 13, NewText := "!errors.Is(err1, err2)" } (by decide)⟩

end Err113
